import Mathlib

/-!
A shallow embedding of the blog application in `src/main.py` (Flask +
SQLAlchemy). The three database tables (`users`, `blog_posts`, `comments`)
become lists of structures; auto-increment primary keys become explicit
counters in the store. Each route handler becomes a pure function from the
store (plus the resolved `current_user` and the form data of a validated
submission) to a `Step`: the HTTP-level result, the flash messages emitted,
the store after the request, and whether `login_user` was called.

External collaborators that the code delegates to are modelled at the
boundary where the code calls them:
  * `werkzeug.security.generate_password_hash` / `check_password_hash` are
    modelled as a deterministic tag-and-compare pair (the spec places the
    hashing primitive out of scope and assumes a standard salted-hash
    library);
  * `date.today().strftime("%B %d, %Y")` is modelled by `strftime_BdY`
    applied to an explicit `Date` argument;
  * SQLAlchemy semantics are reproduced where the handlers rely on them:
    `database.get_or_404` is `find?` plus a 404 outcome, the UNIQUE column
    constraints raise an unhandled `IntegrityError` on commit, deleting a
    post nullifies the `post_id` foreign key of its comments (the
    `comments` relationship declares no delete cascade), and accessing
    `current_user.id` or assigning `post.author = current_user` for an
    anonymous caller raises (AttributeError / unmapped instance), which
    Flask surfaces as HTTP 500 with the transaction rolled back.
-/

/-- A row of the `users` table (class `User`, src/main.py lines 74-84). -/
structure User where
  id : Nat
  email : String
  password : String
  name : String
deriving DecidableEq, Repr

/-- A row of the `blog_posts` table (class `BlogPost`, src/main.py lines 56-69).
`author_id` is a nullable foreign key to `users.id`. -/
structure BlogPost where
  id : Nat
  author_id : Option Nat
  title : String
  subtitle : String
  date : String
  body : String
  img_url : String
deriving DecidableEq, Repr

/-- A row of the `comments` table (class `Comment`, src/main.py lines 88-98).
Both foreign keys are nullable columns. -/
structure Comment where
  id : Nat
  text : String
  author_id : Option Nat
  post_id : Option Nat
deriving DecidableEq, Repr

/-- The relational store: the three tables plus the auto-increment counters
for their integer primary keys. -/
structure DB where
  users : List User
  blog_posts : List BlogPost
  comments : List Comment
  nextUserId : Nat
  nextPostId : Nat
  nextCommentId : Nat
deriving DecidableEq, Repr

/-- The store right after `database.create_all()` on a fresh database:
empty tables, SQLite auto-increment ids starting at 1. -/
def emptyDB : DB := ⟨[], [], [], 1, 1, 1⟩

/-- The flash messages the handlers emit, one constructor per `flash(...)`
call site in src/main.py. -/
inductive Flash
  /-- line 129: already signed up with that email, log in instead -/
  | alreadySignedUp
  /-- line 160: that email does not exist -/
  | emailNotExist
  /-- line 164: password incorrect -/
  | passwordIncorrect
  /-- line 197: need to login or register to comment -/
  | needLoginToComment
deriving DecidableEq, Repr

/-- Redirect targets (`url_for` endpoints) used by the handlers. -/
inductive Endpoint
  | login
  | get_all_posts
  | show_post (post_id : Nat)
deriving DecidableEq, Repr

/-- Unhandled Python exceptions a handler can raise; Flask turns each into an
HTTP 500 response and Flask-SQLAlchemy rolls the transaction back. -/
inductive PyExc
  /-- `current_user.id` when `current_user` is the AnonymousUserMixin -/
  | attributeError
  /-- a UNIQUE column constraint violated at commit -/
  | integrityError
  /-- `post.author = current_user` with a non-mapped (anonymous) object -/
  | unmappedInstanceError
deriving DecidableEq, Repr

/-- Pages rendered by `render_template`. -/
inductive Page
  | registerPage
  | loginPage
  | postPage
  | makePostPage
  | indexPage
deriving DecidableEq, Repr

/-- The HTTP-level outcome of one request. -/
inductive HRes
  | render (page : Page)
  | redirectTo (e : Endpoint)
  | httpError (code : Nat)
  | serverError (e : PyExc)
deriving DecidableEq, Repr

/-- The observable effect of one handled request: outcome, flash messages,
the store afterwards, and the user id passed to `login_user` (if called). -/
structure Step where
  res : HRes
  flashes : List Flash
  db : DB
  loggedIn : Option Nat
deriving DecidableEq, Repr

/-- Model of `werkzeug.security.generate_password_hash(p, method=..., salt_length=8)`:
an external salted one-way hash, out of scope per the spec; modelled as an
injective tagging function so that hashes are never equal to plaintexts and
`check_password_hash` verifies exactly the hashed password. -/
def generate_password_hash (password : String) : String :=
  "pbkdf2:sha256$" ++ password

/-- Model of `werkzeug.security.check_password_hash`. -/
def check_password_hash (pwhash password : String) : Bool :=
  pwhash == generate_password_hash password

/-- A calendar day, the argument `date.today()` supplies. -/
structure Date where
  year : Nat
  month : Nat
  day : Nat
deriving DecidableEq, Repr

/-- Full month name, as `%B` renders it. -/
def monthName : Nat → String
  | 1 => "January"
  | 2 => "February"
  | 3 => "March"
  | 4 => "April"
  | 5 => "May"
  | 6 => "June"
  | 7 => "July"
  | 8 => "August"
  | 9 => "September"
  | 10 => "October"
  | 11 => "November"
  | 12 => "December"
  | _ => ""

/-- Zero-padded two-digit day, as `%d` renders it. -/
def pad2 (n : Nat) : String :=
  if n < 10 then "0" ++ toString n else toString n

/-- `strftime("%B %d, %Y")` of src/main.py line 222, e.g. "June 03, 2025". -/
def strftime_BdY (d : Date) : String :=
  monthName d.month ++ " " ++ pad2 d.day ++ ", " ++ toString d.year

/-- `database.get_or_404(User, user_id)`: the row lookup part. -/
def get_or_404_user (db : DB) (uid : Nat) : Option User :=
  db.users.find? (fun u => u.id == uid)

/-- `database.get_or_404(BlogPost, post_id)`: the row lookup part. -/
def get_or_404_post (db : DB) (pid : Nat) : Option BlogPost :=
  db.blog_posts.find? (fun p => p.id == pid)

/-- `load_user` (src/main.py lines 48-50): the Flask-Login user loader
resolves a session's user id with `database.get_or_404`, so a session whose
user id has no matching row aborts the request with HTTP 404 instead of
falling back to anonymous. -/
def load_user (db : DB) (user_id : Nat) : Except Nat User :=
  match get_or_404_user db user_id with
  | none => Except.error 404
  | some u => Except.ok u

/-- The `admin_only` decorator (src/main.py lines 106-115): aborts 403 when
`current_user.id != 1`. The anonymous `current_user` has no `id` attribute,
so the comparison itself raises AttributeError (HTTP 500). -/
def admin_only (db : DB) (cu : Option User) (f : User → Step) : Step :=
  match cu with
  | none => { res := HRes.serverError PyExc.attributeError, flashes := [], db := db, loggedIn := none }
  | some u =>
    if u.id ≠ 1 then
      { res := HRes.httpError 403, flashes := [], db := db, loggedIn := none }
    else f u

/-- The `/register` handler on a validated submission
(src/main.py lines 119-147). -/
def register (db : DB) (email password name : String) : Step :=
  match db.users.find? (fun u => u.email == email) with
  | some _ =>
    { res := HRes.redirectTo Endpoint.login, flashes := [Flash.alreadySignedUp],
      db := db, loggedIn := none }
  | none =>
    let new_user : User := ⟨db.nextUserId, email, generate_password_hash password, name⟩
    { res := HRes.redirectTo Endpoint.get_all_posts, flashes := [],
      db := { db with users := db.users ++ [new_user], nextUserId := db.nextUserId + 1 },
      loggedIn := some new_user.id }

/-- The `/login` handler on a validated submission
(src/main.py lines 150-170). -/
def login (db : DB) (email password : String) : Step :=
  match db.users.find? (fun u => u.email == email) with
  | none =>
    { res := HRes.redirectTo Endpoint.login, flashes := [Flash.emailNotExist],
      db := db, loggedIn := none }
  | some user =>
    if ¬ check_password_hash user.password password then
      { res := HRes.redirectTo Endpoint.login, flashes := [Flash.passwordIncorrect],
        db := db, loggedIn := none }
    else
      { res := HRes.redirectTo Endpoint.get_all_posts, flashes := [],
        db := db, loggedIn := some user.id }

/-- The `/post/<post_id>` handler on a validated comment submission
(src/main.py lines 189-207): 404 on a missing post, redirect to login for an
anonymous caller, otherwise persist one comment bound to the current user
and the requested post. -/
def show_post (db : DB) (cu : Option User) (post_id : Nat) (comment_text : String) : Step :=
  match get_or_404_post db post_id with
  | none => { res := HRes.httpError 404, flashes := [], db := db, loggedIn := none }
  | some requested_post =>
    match cu with
    | none =>
      { res := HRes.redirectTo Endpoint.login, flashes := [Flash.needLoginToComment],
        db := db, loggedIn := none }
    | some u =>
      let new_comment : Comment := ⟨db.nextCommentId, comment_text, some u.id, some requested_post.id⟩
      { res := HRes.render Page.postPage, flashes := [],
        db := { db with comments := db.comments ++ [new_comment],
                        nextCommentId := db.nextCommentId + 1 },
        loggedIn := none }

/-- The `/new-post` handler on a validated submission, wrapped in
`admin_only` (src/main.py lines 211-227). The handler itself never checks
for a duplicate title; the `blog_posts.title` column is declared UNIQUE, so
committing a colliding title makes the database raise IntegrityError, which
no code catches (HTTP 500, transaction rolled back). -/
def add_new_post (db : DB) (cu : Option User) (title subtitle body img_url : String)
    (today : Date) : Step :=
  admin_only db cu (fun u =>
    if db.blog_posts.any (fun p => p.title == title) then
      { res := HRes.serverError PyExc.integrityError, flashes := [], db := db, loggedIn := none }
    else
      let new_post : BlogPost :=
        ⟨db.nextPostId, some u.id, title, subtitle, strftime_BdY today, body, img_url⟩
      { res := HRes.redirectTo Endpoint.get_all_posts, flashes := [],
        db := { db with blog_posts := db.blog_posts ++ [new_post],
                        nextPostId := db.nextPostId + 1 },
        loggedIn := none })

/-- The `/edit-post/<post_id>` handler on a validated submission
(src/main.py lines 231-249). There is no `admin_only` decorator on this
route. For an anonymous caller the assignment `post.author = current_user`
hands a non-mapped object to the relationship and raises (HTTP 500, rolled
back). The UNIQUE title constraint also applies to the UPDATE at commit. -/
def edit_post (db : DB) (cu : Option User) (post_id : Nat)
    (title subtitle body img_url : String) : Step :=
  match get_or_404_post db post_id with
  | none => { res := HRes.httpError 404, flashes := [], db := db, loggedIn := none }
  | some post =>
    match cu with
    | none =>
      { res := HRes.serverError PyExc.unmappedInstanceError, flashes := [],
        db := db, loggedIn := none }
    | some u =>
      if db.blog_posts.any (fun p => p.id != post.id && p.title == title) then
        { res := HRes.serverError PyExc.integrityError, flashes := [], db := db, loggedIn := none }
      else
        { res := HRes.redirectTo (Endpoint.show_post post.id), flashes := [],
          db := { db with blog_posts :=
                    db.blog_posts.map (fun p =>
                      if p.id == post.id then
                        { post with title := title, subtitle := subtitle, img_url := img_url,
                                    author_id := some u.id, body := body }
                      else p) },
          loggedIn := none }

/-- The `/delete/<post_id>` handler, wrapped in `admin_only`
(src/main.py lines 253-259). The `BlogPost.comments` relationship declares
no delete cascade, so `session.delete(post)` removes the post row and
SQLAlchemy nullifies the `post_id` foreign key of each of its comments; the
comment rows themselves survive. -/
def delete_post (db : DB) (cu : Option User) (post_id : Nat) : Step :=
  admin_only db cu (fun _ =>
    match get_or_404_post db post_id with
    | none => { res := HRes.httpError 404, flashes := [], db := db, loggedIn := none }
    | some post_to_delete =>
      { res := HRes.redirectTo Endpoint.get_all_posts, flashes := [],
        db := { db with
                  blog_posts := db.blog_posts.filter (fun p => p.id != post_to_delete.id),
                  comments := db.comments.map (fun c =>
                    if c.post_id == some post_to_delete.id then { c with post_id := none } else c) },
        loggedIn := none })

/-! ## Store invariants -/

/-- Well-formedness of the `users` table: every id is below the
auto-increment counter, and ids are pairwise distinct. -/
def UsersWF (db : DB) : Prop :=
  (∀ u ∈ db.users, u.id < db.nextUserId) ∧
    db.users.Pairwise (fun a b => a.id ≠ b.id)

/-- Well-formedness of the `blog_posts` table. -/
def PostsWF (db : DB) : Prop :=
  (∀ p ∈ db.blog_posts, p.id < db.nextPostId) ∧
    db.blog_posts.Pairwise (fun a b => a.id ≠ b.id)

/-- Referential soundness of the `comments` table: every comment's author
foreign key points at an existing user, and its parent-post foreign key is
either null or points at an existing post. -/
def RefsOK (db : DB) : Prop :=
  ∀ c ∈ db.comments,
    (∃ u ∈ db.users, c.author_id = some u.id) ∧
    (c.post_id = none ∨ ∃ p ∈ db.blog_posts, c.post_id = some p.id)

/-- The combined store invariant. -/
def StoreInv (db : DB) : Prop := UsersWF db ∧ PostsWF db ∧ RefsOK db

/-- The resolved `current_user` is sound for the store: a non-anonymous
current user is a row of the `users` table (guaranteed in the application
because Flask-Login resolves sessions through `load_user`). -/
def CUOK (db : DB) (cu : Option User) : Prop :=
  match cu with
  | none => True
  | some u => u ∈ db.users

/-! ## List helper lemmas -/

/-- In a list whose keys are pairwise distinct, `find?` by the key of a
member returns exactly that member. -/
theorem find_of_mem_pairwise {α β : Type} [DecidableEq β] (k : α → β) :
    ∀ (l : List α) (a : α), a ∈ l → l.Pairwise (fun x y => k x ≠ k y) →
      l.find? (fun x => k x == k a) = some a := by
  intro l
  induction l with
  | nil => intro a ha _; cases ha
  | cons hd tl ih =>
    intro a ha hp
    rcases List.mem_cons.mp ha with h | h
    · subst h
      simp [List.find?]
    · have hhd : k hd ≠ k a := (List.pairwise_cons.mp hp).1 a h
      have : (k hd == k a) = false := beq_eq_false_iff_ne.mpr hhd
      simp only [List.find?, this]
      exact ih a h (List.pairwise_cons.mp hp).2

/-- In a list whose keys are pairwise distinct, two members with equal keys
are equal. -/
theorem mem_pairwise_key_inj {α β : Type} (k : α → β) :
    ∀ (l : List α) (a b : α), a ∈ l → b ∈ l →
      l.Pairwise (fun x y => k x ≠ k y) → k a = k b → a = b := by
  intro l
  induction l with
  | nil => intro a b ha _ _ _; cases ha
  | cons hd tl ih =>
    intro a b ha hb hp hk
    have hp' := List.pairwise_cons.mp hp
    rcases List.mem_cons.mp ha with h1 | h1 <;> rcases List.mem_cons.mp hb with h2 | h2
    · rw [h1, h2]
    · subst h1; exact absurd hk (hp'.1 b h2)
    · subst h2; exact absurd hk.symm (hp'.1 a h1)
    · exact ih a b h1 h2 hp'.2 hk

/-- `find?` by a fresh key on a list extended with an element carrying that
key returns the new element. -/
theorem find_append_new {α β : Type} [DecidableEq β] (k : α → β) (q : α) (n : β)
    (hq : k q = n) :
    ∀ (l : List α), (∀ p ∈ l, k p ≠ n) →
      (l ++ [q]).find? (fun x => k x == n) = some q := by
  intro l
  induction l with
  | nil =>
    intro _
    simp [List.find?, hq]
  | cons hd tl ih =>
    intro hfresh
    have : (k hd == n) = false := beq_eq_false_iff_ne.mpr (hfresh hd (by simp))
    simp only [List.cons_append, List.find?, this]
    exact ih (fun p hp => hfresh p (by simp [hp]))

/-! ## A worked example store

A concrete run of the application from a fresh database: the first
registered user (id 1) is the admin, a second user registers, the admin
creates a post, the second user comments on it, the admin deletes the post. -/

/-- The first registered user; their auto-increment id is the distinguished
admin constant 1. -/
def adminU : User := ⟨1, "a@x", generate_password_hash "pw", "Admin"⟩

/-- The second registered user. -/
def bobU : User := ⟨2, "b@x", generate_password_hash "pw2", "Bob"⟩

/-- Store after the admin registers. -/
def db1 : DB := (register emptyDB "a@x" "pw" "Admin").db

/-- Store after a second user registers. -/
def db2 : DB := (register db1 "b@x" "pw2" "Bob").db

/-- Store after the admin creates the post titled "T". -/
def db3 : DB := (add_new_post db2 (some adminU) "T" "S" "B" "U" ⟨2025, 6, 3⟩).db

/-- Store after the second user comments "hi" on post 1. -/
def db4 : DB := (show_post db3 (some bobU) 1 "hi").db

/-- Store after the admin deletes post 1. -/
def db5 : DB := (delete_post db4 (some adminU) 1).db

/-! ## Claims -/

/-- Claim C10: resolving a request's session whose user id has no matching
row in the `users` table aborts the request with HTTP 404 (via
`database.get_or_404` inside `load_user`) rather than treating the caller
as anonymous. -/
theorem C10_stale_session_aborts_404 (db : DB) (uid : Nat)
    (h : ∀ u ∈ db.users, u.id ≠ uid) :
    load_user db uid = Except.error 404 := by
  have hfind : db.users.find? (fun u => u.id == uid) = none := by
    rw [List.find?_eq_none]
    intro u hu
    simp [h u hu]
  unfold load_user get_or_404_user
  rw [hfind]

/-- Witness for C10: a store with no user of id 7. -/
theorem C10_witness :
    (∀ u ∈ db1.users, u.id ≠ 7) ∧ load_user db1 7 = Except.error 404 :=
  ⟨by decide, C10_stale_session_aborts_404 db1 7 (by decide)⟩

/-- Claim C5: registering with an email that already belongs to exactly one
user fails with the duplicate-email flash and a redirect to the login page,
leaves the store unchanged (still exactly one user with that email), and
calls `login_user` on nobody; registering with a fresh email persists one
new user whose stored password is the salted hash of the submitted
password, and establishes a session for that new user. -/
theorem C5_register_email_uniqueness (db : DB) (e pw nm : String) :
    ((db.users.filter (fun u => u.email == e)).length = 1 →
      register db e pw nm
        = ⟨HRes.redirectTo Endpoint.login, [Flash.alreadySignedUp], db, none⟩ ∧
      ((register db e pw nm).db.users.filter (fun u => u.email == e)).length = 1) ∧
    ((∀ u ∈ db.users, u.email ≠ e) →
      (register db e pw nm).db.users
          = db.users ++ [⟨db.nextUserId, e, generate_password_hash pw, nm⟩] ∧
      (register db e pw nm).loggedIn = some db.nextUserId ∧
      (register db e pw nm).res = HRes.redirectTo Endpoint.get_all_posts) := by
  constructor
  · intro hone
    cases hfind : db.users.find? (fun u => u.email == e) with
    | none =>
      exfalso
      have hnil : db.users.filter (fun u => u.email == e) = [] := by
        rw [List.filter_eq_nil_iff]
        exact List.find?_eq_none.mp hfind
      rw [hnil] at hone
      exact absurd hone (by decide)
    | some u =>
      have hstep : register db e pw nm
          = ⟨HRes.redirectTo Endpoint.login, [Flash.alreadySignedUp], db, none⟩ := by
        unfold register
        rw [hfind]
      exact ⟨hstep, by rw [hstep]; exact hone⟩
  · intro hfresh
    have hfind : db.users.find? (fun u => u.email == e) = none := by
      rw [List.find?_eq_none]
      intro u hu
      simp [hfresh u hu]
    unfold register
    rw [hfind]
    exact ⟨rfl, rfl, rfl⟩

/-- Witness for C5: both branches at concrete stores — re-registering the
admin's email on `db1`, and registering a fresh email on `db1`. -/
theorem C5_witness :
    ((db1.users.filter (fun u => u.email == "a@x")).length = 1 ∧
      register db1 "a@x" "q" "Z"
        = ⟨HRes.redirectTo Endpoint.login, [Flash.alreadySignedUp], db1, none⟩) ∧
    ((∀ u ∈ db1.users, u.email ≠ "b@x") ∧
      (register db1 "b@x" "pw2" "Bob").db.users
        = db1.users ++ [⟨db1.nextUserId, "b@x", generate_password_hash "pw2", "Bob"⟩]) :=
  ⟨⟨by decide, ((C5_register_email_uniqueness db1 "a@x" "q" "Z").1 (by decide)).1⟩,
   ⟨by decide, ((C5_register_email_uniqueness db1 "b@x" "pw2" "Bob").2 (by decide)).1⟩⟩

/-- Claim C6: login with an unknown email fails with the no-such-user
flash; with a known email but a password that does not verify against the
stored hash it fails with the password-incorrect flash; with verifying
credentials it calls `login_user` on that user, and resolving the
resulting session through `load_user` returns exactly that user. Login
never modifies any table. -/
theorem C6_login_behaviour (db : DB) (e pw : String) (u : User)
    (hid : db.users.Pairwise (fun a b => a.id ≠ b.id))
    (hem : db.users.Pairwise (fun a b => a.email ≠ b.email)) :
    (login db e pw).db = db ∧
    ((∀ v ∈ db.users, v.email ≠ e) →
      login db e pw = ⟨HRes.redirectTo Endpoint.login, [Flash.emailNotExist], db, none⟩) ∧
    (u ∈ db.users → u.email = e →
      (check_password_hash u.password pw = false →
        login db e pw = ⟨HRes.redirectTo Endpoint.login, [Flash.passwordIncorrect], db, none⟩) ∧
      (check_password_hash u.password pw = true →
        login db e pw = ⟨HRes.redirectTo Endpoint.get_all_posts, [], db, some u.id⟩ ∧
        load_user db u.id = Except.ok u)) := by
  refine ⟨?_, ?_, ?_⟩
  · unfold login
    split
    · rfl
    · split <;> rfl
  · intro hnone
    have hfind : db.users.find? (fun v => v.email == e) = none := by
      rw [List.find?_eq_none]
      intro v hv
      simp [hnone v hv]
    unfold login
    rw [hfind]
  · intro hmem he
    subst he
    have hfind : db.users.find? (fun v => v.email == u.email) = some u :=
      find_of_mem_pairwise (fun x => x.email) db.users u hmem hem
    have hload : load_user db u.id = Except.ok u := by
      have hfid : db.users.find? (fun v => v.id == u.id) = some u :=
        find_of_mem_pairwise (fun x => x.id) db.users u hmem hid
      unfold load_user get_or_404_user
      rw [hfid]
    constructor
    · intro hbad
      unfold login
      rw [hfind]
      simp [hbad]
    · intro hok
      refine ⟨?_, hload⟩
      unfold login
      rw [hfind]
      simp [hok]

/-- Witness for C6: all three branches at a concrete store with two users. -/
theorem C6_witness :
    (login db2 "z@x" "pw") = ⟨HRes.redirectTo Endpoint.login, [Flash.emailNotExist], db2, none⟩ ∧
    (login db2 "b@x" "bad") = ⟨HRes.redirectTo Endpoint.login, [Flash.passwordIncorrect], db2, none⟩ ∧
    (login db2 "b@x" "pw2") = ⟨HRes.redirectTo Endpoint.get_all_posts, [], db2, some bobU.id⟩ ∧
    load_user db2 bobU.id = Except.ok bobU :=
  ⟨(C6_login_behaviour db2 "z@x" "pw" bobU (by decide) (by decide)).2.1 (by decide),
   ((C6_login_behaviour db2 "b@x" "bad" bobU (by decide) (by decide)).2.2
      (by decide) (by decide)).1 (by decide),
   ((C6_login_behaviour db2 "b@x" "pw2" bobU (by decide) (by decide)).2.2
      (by decide) (by decide)).2 (by decide)⟩

/-- Claim C8: posting a comment to a missing post id fails with 404 and
changes nothing; an anonymous caller on an existing post is flashed and
redirected to login with nothing persisted; an authenticated caller on an
existing post persists exactly one new comment whose author is the current
user and whose parent is that post (the existence check runs first, so a
missing post yields 404 even for an anonymous caller). -/
theorem C8_add_comment (db : DB) (cu : Option User) (pid : Nat) (txt : String)
    (u : User) (p : BlogPost) :
    ((∀ q ∈ db.blog_posts, q.id ≠ pid) →
      show_post db cu pid txt = ⟨HRes.httpError 404, [], db, none⟩) ∧
    (get_or_404_post db pid = some p →
      (cu = none →
        show_post db cu pid txt
          = ⟨HRes.redirectTo Endpoint.login, [Flash.needLoginToComment], db, none⟩) ∧
      (cu = some u →
        (show_post db cu pid txt).db.comments
            = db.comments ++ [⟨db.nextCommentId, txt, some u.id, some p.id⟩] ∧
        (show_post db cu pid txt).db.users = db.users ∧
        (show_post db cu pid txt).db.blog_posts = db.blog_posts ∧
        (show_post db cu pid txt).res = HRes.render Page.postPage)) := by
  constructor
  · intro hmiss
    have hfind : get_or_404_post db pid = none := by
      unfold get_or_404_post
      rw [List.find?_eq_none]
      intro q hq
      simp [hmiss q hq]
    unfold show_post
    rw [hfind]
  · intro hfind
    constructor
    · intro hanon
      subst hanon
      unfold show_post
      rw [hfind]
    · intro hauth
      subst hauth
      unfold show_post
      rw [hfind]
      exact ⟨rfl, rfl, rfl, rfl⟩

/-- Witness for C8: all three branches at concrete stores — a missing post
id on `db3`, an anonymous comment attempt on post 1, and the second user's
persisted comment. -/
theorem C8_witness :
    (∀ q ∈ db3.blog_posts, q.id ≠ 9) ∧
    show_post db3 (some bobU) 9 "hi" = ⟨HRes.httpError 404, [], db3, none⟩ ∧
    get_or_404_post db3 1 = some ⟨1, some 1, "T", "S", "June 03, 2025", "B", "U"⟩ ∧
    show_post db3 none 1 "hi"
      = ⟨HRes.redirectTo Endpoint.login, [Flash.needLoginToComment], db3, none⟩ ∧
    (show_post db3 (some bobU) 1 "hi").db.comments
      = db3.comments ++ [⟨db3.nextCommentId, "hi", some bobU.id, some 1⟩] :=
  ⟨by decide,
   (C8_add_comment db3 (some bobU) 9 "hi" bobU ⟨1, some 1, "T", "S", "June 03, 2025", "B", "U"⟩).1
     (by decide),
   by decide,
   ((C8_add_comment db3 none 1 "hi" bobU ⟨1, some 1, "T", "S", "June 03, 2025", "B", "U"⟩).2
     (by decide)).1 rfl,
   (((C8_add_comment db3 (some bobU) 1 "hi" bobU
       ⟨1, some 1, "T", "S", "June 03, 2025", "B", "U"⟩).2 (by decide)).2 rfl).1⟩

/-- Claim C9: creating a post with a fresh title as the admin persists it
and a subsequent lookup of the new id returns a post carrying exactly the
supplied title, subtitle, body and image URL, the creation day formatted
for display, and the admin as author. -/
theorem C9_create_roundtrip (db : DB) (cu : Option User) (u : User)
    (t s b i : String) (today : Date)
    (hcu : cu = some u) (hadmin : u.id = 1)
    (hfresh : ∀ p ∈ db.blog_posts, p.title ≠ t)
    (hids : ∀ p ∈ db.blog_posts, p.id < db.nextPostId) :
    (add_new_post db cu t s b i today).res = HRes.redirectTo Endpoint.get_all_posts ∧
    get_or_404_post (add_new_post db cu t s b i today).db db.nextPostId
      = some ⟨db.nextPostId, some 1, t, s, strftime_BdY today, b, i⟩ := by
  subst hcu
  have hany : db.blog_posts.any (fun p => p.title == t) = false := by
    rw [List.any_eq_false]
    intro p hp
    simp [hfresh p hp]
  have hstep : add_new_post db (some u) t s b i today
      = ⟨HRes.redirectTo Endpoint.get_all_posts, [],
         { db with
             blog_posts := db.blog_posts
               ++ [⟨db.nextPostId, some 1, t, s, strftime_BdY today, b, i⟩],
             nextPostId := db.nextPostId + 1 }, none⟩ := by
    unfold add_new_post admin_only
    simp [hadmin, hany]
  rw [hstep]
  refine ⟨rfl, ?_⟩
  unfold get_or_404_post
  exact find_append_new (fun p : BlogPost => p.id)
    ⟨db.nextPostId, some 1, t, s, strftime_BdY today, b, i⟩ db.nextPostId rfl
    db.blog_posts (fun p hp => Nat.ne_of_lt (hids p hp))

/-- Witness for C9: the admin creates the post titled "T" on the concrete
store `db2`, and looking up the new id 1 returns exactly the submitted
fields with the formatted creation day and the admin as author. -/
theorem C9_witness :
    adminU.id = 1 ∧ (∀ p ∈ db2.blog_posts, p.title ≠ "T") ∧
    (∀ p ∈ db2.blog_posts, p.id < db2.nextPostId) ∧
    ((add_new_post db2 (some adminU) "T" "S" "B" "U" ⟨2025, 6, 3⟩).res
        = HRes.redirectTo Endpoint.get_all_posts ∧
      get_or_404_post (add_new_post db2 (some adminU) "T" "S" "B" "U" ⟨2025, 6, 3⟩).db
          db2.nextPostId
        = some ⟨db2.nextPostId, some 1, "T", "S", strftime_BdY ⟨2025, 6, 3⟩, "B", "U"⟩) :=
  ⟨by decide, by decide, by decide,
   C9_create_roundtrip db2 (some adminU) adminU "T" "S" "B" "U" ⟨2025, 6, 3⟩ rfl
     (by decide) (by decide) (by decide)⟩

/-- Counterexample to claim C3 as stated: an anonymous caller (no session)
hitting the delete route does not get HTTP 403 — `current_user.id` raises
AttributeError on the anonymous user, an unhandled exception surfaced as
HTTP 500. -/
theorem C3_counterexample :
    (delete_post db3 none 1).res = HRes.serverError PyExc.attributeError ∧
    (delete_post db3 none 1).res ≠ HRes.httpError 403 ∧
    (delete_post db3 none 1).db = db3 := by decide

/-- Claim C3 amended: an authenticated caller whose id is not the admin
constant 1 gets HTTP 403 with no redirect from both Create and Delete and
the store is unchanged; an anonymous caller instead triggers an unhandled
AttributeError (HTTP 500), also with the store unchanged. -/
theorem C3_admin_gate (db : DB) (cu : Option User) (u : User)
    (t s b i : String) (today : Date) (pid : Nat) :
    (cu = some u → u.id ≠ 1 →
      add_new_post db cu t s b i today = ⟨HRes.httpError 403, [], db, none⟩ ∧
      delete_post db cu pid = ⟨HRes.httpError 403, [], db, none⟩) ∧
    (cu = none →
      add_new_post db cu t s b i today
        = ⟨HRes.serverError PyExc.attributeError, [], db, none⟩ ∧
      delete_post db cu pid = ⟨HRes.serverError PyExc.attributeError, [], db, none⟩) := by
  constructor
  · intro hcu hne
    subst hcu
    constructor
    · unfold add_new_post admin_only
      simp [hne]
    · unfold delete_post admin_only
      simp [hne]
  · intro hcu
    subst hcu
    exact ⟨rfl, rfl⟩

/-- Witness for C3: the non-admin user `bobU` is refused with 403 on both
admin-gated routes at the concrete store `db3`. -/
theorem C3_witness :
    bobU.id ≠ 1 ∧
    add_new_post db3 (some bobU) "X" "Y" "Z" "W" ⟨2025, 7, 1⟩
      = ⟨HRes.httpError 403, [], db3, none⟩ ∧
    delete_post db3 (some bobU) 1 = ⟨HRes.httpError 403, [], db3, none⟩ :=
  ⟨by decide,
   (C3_admin_gate db3 (some bobU) bobU "X" "Y" "Z" "W" ⟨2025, 7, 1⟩ 1).1 rfl (by decide)⟩

/-- Counterexample to claim C4 as stated: the admin creating a second post
with the existing title "T" is not given a recoverable, user-facing
DuplicateTitle failure — the handler performs no title check, the UNIQUE
column constraint fires at commit, and the request dies with an unhandled
IntegrityError (HTTP 500) and no flash message. -/
theorem C4_counterexample :
    (add_new_post db3 (some adminU) "T" "S2" "B2" "U2" ⟨2025, 6, 4⟩).res
      = HRes.serverError PyExc.integrityError ∧
    (add_new_post db3 (some adminU) "T" "S2" "B2" "U2" ⟨2025, 6, 4⟩).flashes = [] ∧
    (add_new_post db3 (some adminU) "T" "S2" "B2" "U2" ⟨2025, 6, 4⟩).db = db3 := by decide

/-- Claim C4 amended: when a post with the submitted title already exists,
a Create by the admin is rejected by the database's unique-title constraint
and surfaces as an unhandled IntegrityError (HTTP 500) with no flash
message; no second post is persisted (the store is unchanged). -/
theorem C4_duplicate_title (db : DB) (cu : Option User) (u : User)
    (t s b i : String) (today : Date)
    (hcu : cu = some u) (hadmin : u.id = 1)
    (hdup : ∃ p ∈ db.blog_posts, p.title = t) :
    add_new_post db cu t s b i today
      = ⟨HRes.serverError PyExc.integrityError, [], db, none⟩ := by
  subst hcu
  have hany : db.blog_posts.any (fun p => p.title == t) = true := by
    rw [List.any_eq_true]
    obtain ⟨p, hp, hpt⟩ := hdup
    exact ⟨p, hp, by simp [hpt]⟩
  unfold add_new_post admin_only
  simp [hadmin, hany]

/-- Witness for C4: the concrete duplicate creation on `db3`. -/
theorem C4_witness :
    adminU.id = 1 ∧ (∃ p ∈ db3.blog_posts, p.title = "T") ∧
    add_new_post db3 (some adminU) "T" "S3" "B3" "U3" ⟨2025, 6, 5⟩
      = ⟨HRes.serverError PyExc.integrityError, [], db3, none⟩ :=
  ⟨by decide, by decide,
   C4_duplicate_title db3 (some adminU) adminU "T" "S3" "B3" "U3" ⟨2025, 6, 5⟩ rfl
     (by decide) (by decide)⟩

/-- Counterexample to claim C7 as stated: "every caller" includes an
anonymous one, but for an anonymous caller the assignment
`post.author = current_user` hands the non-mapped anonymous object to the
relationship and raises — the edit dies with HTTP 500 and overwrites
nothing. -/
theorem C7_counterexample :
    (edit_post db3 none 1 "N" "NS" "NB" "NU").res
      = HRes.serverError PyExc.unmappedInstanceError ∧
    (edit_post db3 none 1 "N" "NS" "NB" "NU").db = db3 ∧
    db3.blog_posts = [⟨1, some 1, "T", "S", "June 03, 2025", "B", "U"⟩] := by decide

/-- Claim C7 amended: for every *authenticated* caller (no authorization is
enforced on edit, so any logged-in user qualifies) and a supplied title
that does not collide with a different post's title, Edit overwrites the
post's title, subtitle, body and image URL, rebinds its author to the
caller, and leaves its id and publication date unchanged, touching no other
row; if no post has the requested id, Edit fails with 404 and changes
nothing. -/
theorem C7_edit_post (db : DB) (cu : Option User) (u : User) (pid : Nat)
    (t s b i : String) (p : BlogPost) (hcu : cu = some u) :
    (get_or_404_post db pid = none →
      edit_post db cu pid t s b i = ⟨HRes.httpError 404, [], db, none⟩) ∧
    (get_or_404_post db pid = some p →
      (∀ q ∈ db.blog_posts, q.id ≠ p.id → q.title ≠ t) →
      (edit_post db cu pid t s b i).db.blog_posts
          = db.blog_posts.map (fun q =>
              if q.id == p.id then ⟨p.id, some u.id, t, s, p.date, b, i⟩ else q) ∧
      (edit_post db cu pid t s b i).db.users = db.users ∧
      (edit_post db cu pid t s b i).db.comments = db.comments ∧
      (edit_post db cu pid t s b i).res = HRes.redirectTo (Endpoint.show_post p.id)) := by
  subst hcu
  constructor
  · intro hmiss
    unfold edit_post
    rw [hmiss]
  · intro hfind hnocoll
    have hany : db.blog_posts.any (fun q => q.id != p.id && q.title == t) = false := by
      rw [List.any_eq_false]
      intro q hq
      intro hcontra
      rw [Bool.and_eq_true, bne_iff_ne, beq_iff_eq] at hcontra
      exact hnocoll q hq hcontra.1 hcontra.2
    unfold edit_post
    rw [hfind]
    simp only [hany]
    exact ⟨rfl, rfl, rfl, rfl⟩

/-- Witness for C7: the non-admin, non-author user `bobU` edits post 1 on
`db3`; every field is overwritten, the author is rebound to `bobU`, and the
id and date survive. -/
theorem C7_witness :
    get_or_404_post db3 1 = some ⟨1, some 1, "T", "S", "June 03, 2025", "B", "U"⟩ ∧
    (∀ q ∈ db3.blog_posts, q.id ≠ 1 → q.title ≠ "N2") ∧
    ((edit_post db3 (some bobU) 1 "N2" "S2" "B2" "U2").db.blog_posts
        = db3.blog_posts.map (fun q =>
            if q.id == 1 then ⟨1, some bobU.id, "N2", "S2", "June 03, 2025", "B2", "U2"⟩ else q) ∧
      (edit_post db3 (some bobU) 1 "N2" "S2" "B2" "U2").db.users = db3.users ∧
      (edit_post db3 (some bobU) 1 "N2" "S2" "B2" "U2").db.comments = db3.comments ∧
      (edit_post db3 (some bobU) 1 "N2" "S2" "B2" "U2").res
        = HRes.redirectTo (Endpoint.show_post 1)) :=
  ⟨by decide, by decide,
   (C7_edit_post db3 (some bobU) bobU 1 "N2" "S2" "B2" "U2"
       ⟨1, some 1, "T", "S", "June 03, 2025", "B", "U"⟩ rfl).2 (by decide) (by decide)⟩

/-- Counterexample to claim C1 as stated: on the concrete run `db4` (admin,
second user, one post, one comment on it), the admin's delete succeeds and
removes the post, but the comment is *not* removed — it survives with its
parent foreign key nullified, because the `comments` relationship declares
no delete cascade. -/
theorem C1_counterexample :
    (delete_post db4 (some adminU) 1).res = HRes.redirectTo Endpoint.get_all_posts ∧
    (delete_post db4 (some adminU) 1).db.blog_posts = [] ∧
    db4.comments = [⟨1, "hi", some 2, some 1⟩] ∧
    (delete_post db4 (some adminU) 1).db.comments = [⟨1, "hi", some 2, none⟩] := by decide

/-- Claim C1 amended: after the admin deletes an existing post, the post
row is removed, but its comments are not: every comment row survives, with
its `post_id` foreign key set to null exactly when it pointed at the
deleted post (SQLAlchemy's default nullify behaviour — no delete cascade is
configured). -/
theorem C1_delete_detaches_comments (db : DB) (cu : Option User) (u : User)
    (pid : Nat) (p : BlogPost)
    (hcu : cu = some u) (hadmin : u.id = 1)
    (hfind : get_or_404_post db pid = some p) :
    (delete_post db cu pid).res = HRes.redirectTo Endpoint.get_all_posts ∧
    (delete_post db cu pid).db.blog_posts = db.blog_posts.filter (fun q => q.id != p.id) ∧
    (delete_post db cu pid).db.comments
      = db.comments.map (fun c =>
          if c.post_id == some p.id then ⟨c.id, c.text, c.author_id, none⟩ else c) := by
  subst hcu
  unfold delete_post admin_only
  simp only [hadmin]
  rw [if_neg (by simp)]
  rw [hfind]
  exact ⟨rfl, rfl, rfl⟩

/-- Witness for C1: the concrete deletion of post 1 on `db4`. -/
theorem C1_witness :
    adminU.id = 1 ∧
    get_or_404_post db4 1 = some ⟨1, some 1, "T", "S", "June 03, 2025", "B", "U"⟩ ∧
    ((delete_post db4 (some adminU) 1).res = HRes.redirectTo Endpoint.get_all_posts ∧
      (delete_post db4 (some adminU) 1).db.blog_posts
        = db4.blog_posts.filter (fun q => q.id != 1) ∧
      (delete_post db4 (some adminU) 1).db.comments
        = db4.comments.map (fun c =>
            if c.post_id == some 1 then ⟨c.id, c.text, c.author_id, none⟩ else c)) :=
  ⟨by decide, by decide,
   C1_delete_detaches_comments db4 (some adminU) adminU 1
     ⟨1, some 1, "T", "S", "June 03, 2025", "B", "U"⟩ rfl (by decide) (by decide)⟩

/-! ## Invariant preservation -/

/-- Case principle for the `admin_only` decorator: a store property holds of
the outcome if it holds of the unchanged store (anonymous and non-admin
branches) and of the guarded handler's outcome for the admin. -/
theorem admin_only_cases (P : DB → Prop) (db : DB) (cu : Option User) (f : User → Step)
    (hdb : P db) (hf : ∀ u, cu = some u → u.id = 1 → P (f u).db) :
    P (admin_only db cu f).db := by
  unfold admin_only
  split
  · exact hdb
  · rename_i u
    split
    · exact hdb
    · rename_i hne
      exact hf u rfl (not_not.mp hne)

/-- Appending an element with a fresh key keeps keys pairwise distinct. -/
theorem pairwise_key_append {α β : Type} (k : α → β) {l : List α} {q : α}
    (hp : l.Pairwise (fun x y => k x ≠ k y)) (hfresh : ∀ x ∈ l, k x ≠ k q) :
    (l ++ [q]).Pairwise (fun x y => k x ≠ k y) := by
  rw [List.pairwise_append]
  refine ⟨hp, List.pairwise_singleton _ _, ?_⟩
  intro a ha b hb
  rw [List.mem_singleton] at hb
  subst hb
  exact hfresh a ha

/-- `register` preserves the store invariant. -/
theorem register_preserves_inv (db : DB) (e pw nm : String) (h : StoreInv db) :
    StoreInv (register db e pw nm).db := by
  obtain ⟨⟨hub, hup⟩, hp, hr⟩ := h
  unfold register
  split
  · exact ⟨⟨hub, hup⟩, hp, hr⟩
  · refine ⟨⟨?_, ?_⟩, hp, ?_⟩
    · intro v hv
      rcases List.mem_append.mp hv with h1 | h1
      · exact Nat.lt_succ_of_lt (hub v h1)
      · rw [List.mem_singleton] at h1
        subst h1
        exact Nat.lt_succ_self _
    · refine pairwise_key_append (fun x : User => x.id) hup ?_
      intro x hx
      exact Nat.ne_of_lt (hub x hx)
    · intro c hc
      obtain ⟨⟨v, hv, hav⟩, hpost⟩ := hr c hc
      exact ⟨⟨v, List.mem_append_left _ hv, hav⟩, hpost⟩

/-- `add_new_post` preserves the store invariant. -/
theorem add_post_preserves_inv (db : DB) (cu : Option User)
    (t s b i : String) (today : Date) (h : StoreInv db) :
    StoreInv (add_new_post db cu t s b i today).db := by
  unfold add_new_post
  refine admin_only_cases StoreInv db cu _ h ?_
  intro u _ _
  beta_reduce
  obtain ⟨hu, ⟨hpb, hpp⟩, hr⟩ := h
  split
  · exact ⟨hu, ⟨hpb, hpp⟩, hr⟩
  · refine ⟨hu, ⟨?_, ?_⟩, ?_⟩
    · intro q hq
      rcases List.mem_append.mp hq with h1 | h1
      · exact Nat.lt_succ_of_lt (hpb q h1)
      · rw [List.mem_singleton] at h1
        subst h1
        exact Nat.lt_succ_self _
    · refine pairwise_key_append (fun x : BlogPost => x.id) hpp ?_
      intro x hx
      exact Nat.ne_of_lt (hpb x hx)
    · intro c hc
      obtain ⟨hauth, hpost⟩ := hr c hc
      refine ⟨hauth, ?_⟩
      rcases hpost with h1 | ⟨q, hq, hcq⟩
      · exact Or.inl h1
      · exact Or.inr ⟨q, List.mem_append_left _ hq, hcq⟩

/-- `edit_post` preserves the store invariant. -/
theorem edit_preserves_inv (db : DB) (cu : Option User) (pid : Nat)
    (t s b i : String) (h : StoreInv db) :
    StoreInv (edit_post db cu pid t s b i).db := by
  obtain ⟨hu, ⟨hpb, hpp⟩, hr⟩ := h
  unfold edit_post
  split
  · exact ⟨hu, ⟨hpb, hpp⟩, hr⟩
  · rename_i post _
    split
    · exact ⟨hu, ⟨hpb, hpp⟩, hr⟩
    · rename_i u
      split
      · exact ⟨hu, ⟨hpb, hpp⟩, hr⟩
      · have hfid : ∀ q : BlogPost,
            (if q.id == post.id then
              (⟨post.id, some u.id, t, s, post.date, b, i⟩ : BlogPost)
             else q).id = q.id := by
          intro q
          by_cases hq : q.id == post.id
          · rw [if_pos hq]
            exact (beq_iff_eq.mp hq).symm
          · rw [if_neg hq]
        refine ⟨hu, ⟨?_, ?_⟩, ?_⟩
        · intro x hx
          obtain ⟨q, hq, rfl⟩ := List.mem_map.mp hx
          rw [hfid q]
          exact hpb q hq
        · rw [List.pairwise_map]
          refine hpp.imp ?_
          intro a b1 hab
          beta_reduce
          rw [hfid a, hfid b1]
          exact hab
        · intro c hc
          obtain ⟨hauth, hpost⟩ := hr c hc
          refine ⟨hauth, ?_⟩
          rcases hpost with h1 | ⟨q, hq, hcq⟩
          · exact Or.inl h1
          · refine Or.inr ⟨_, List.mem_map_of_mem _ hq, ?_⟩
            beta_reduce
            rw [hfid q]
            exact hcq

/-- `delete_post` preserves the store invariant. -/
theorem delete_preserves_inv (db : DB) (cu : Option User) (pid : Nat) (h : StoreInv db) :
    StoreInv (delete_post db cu pid).db := by
  unfold delete_post
  refine admin_only_cases StoreInv db cu _ h ?_
  intro u _ _
  beta_reduce
  obtain ⟨hu, ⟨hpb, hpp⟩, hr⟩ := h
  split
  · exact ⟨hu, ⟨hpb, hpp⟩, hr⟩
  · rename_i post _
    have hgau : ∀ c : Comment,
        (if c.post_id == some post.id then (⟨c.id, c.text, c.author_id, none⟩ : Comment)
         else c).author_id = c.author_id := by
      intro c
      by_cases hc : c.post_id == some post.id
      · rw [if_pos hc]
      · rw [if_neg hc]
    refine ⟨hu, ⟨?_, ?_⟩, ?_⟩
    · intro q hq
      exact hpb q (List.mem_of_mem_filter hq)
    · exact List.Pairwise.sublist (List.filter_sublist _) hpp
    · intro c hc
      obtain ⟨c0, hc0, rfl⟩ := List.mem_map.mp hc
      obtain ⟨⟨w, hw, haw⟩, hpost⟩ := hr c0 hc0
      constructor
      · rw [hgau c0]
        exact ⟨w, hw, haw⟩
      · by_cases hcp : c0.post_id == some post.id
        · rw [if_pos hcp]
          exact Or.inl rfl
        · rw [if_neg hcp]
          rcases hpost with h1 | ⟨q, hq, hcq⟩
          · exact Or.inl h1
          · have hne : q.id ≠ post.id := by
              intro hEq
              exact hcp (by rw [hcq, hEq]; exact beq_self_eq_true _)
            refine Or.inr ⟨q, ?_, hcq⟩
            refine List.mem_filter.mpr ⟨hq, ?_⟩
            exact bne_iff_ne.mpr hne

/-- `show_post` (the comment submission path) preserves the store
invariant, given that the current user was resolved from the store. -/
theorem comment_preserves_inv (db : DB) (cu : Option User) (pid : Nat) (txt : String)
    (h : StoreInv db) (hcu : CUOK db cu) :
    StoreInv (show_post db cu pid txt).db := by
  obtain ⟨hu, hp, hr⟩ := h
  unfold show_post
  split
  · exact ⟨hu, hp, hr⟩
  · rename_i post heq
    split
    · exact ⟨hu, hp, hr⟩
    · rename_i u
      have hv : u ∈ db.users := hcu
      have hpost : post ∈ db.blog_posts := by
        have hfind : db.blog_posts.find? (fun p => p.id == pid) = some post := heq
        exact List.mem_of_find?_eq_some hfind
      refine ⟨hu, hp, ?_⟩
      intro c hc
      rcases List.mem_append.mp hc with h1 | h1
      · exact hr c h1
      · rw [List.mem_singleton] at h1
        subst h1
        exact ⟨⟨u, hv, rfl⟩, Or.inr ⟨post, hpost, rfl⟩⟩

/-- Exactly-one phrasing of comment referential integrity, derivable from
the store invariant: each comment has exactly one author row, and a parent
reference that is either null or matches exactly one post row. -/
def RefsExactlyOne (db : DB) : Prop :=
  ∀ c ∈ db.comments,
    (∃! u : User, u ∈ db.users ∧ c.author_id = some u.id) ∧
    (c.post_id = none ∨ ∃! p : BlogPost, p ∈ db.blog_posts ∧ c.post_id = some p.id)

/-- The store invariant yields the exactly-one phrasing. -/
theorem storeInv_refs_exactly_one (db : DB) (h : StoreInv db) : RefsExactlyOne db := by
  obtain ⟨⟨_, hup⟩, ⟨_, hpp⟩, hr⟩ := h
  intro c hc
  obtain ⟨⟨u, hu, hau⟩, hpost⟩ := hr c hc
  constructor
  · refine ⟨u, ⟨hu, hau⟩, ?_⟩
    rintro v ⟨hv, hav⟩
    refine mem_pairwise_key_inj (fun x => x.id) db.users v u hv hu hup ?_
    exact Option.some.inj (hav.symm.trans hau)
  · rcases hpost with h1 | ⟨p, hp, hcp⟩
    · exact Or.inl h1
    · refine Or.inr ⟨p, ⟨hp, hcp⟩, ?_⟩
      rintro q ⟨hq, hcq⟩
      refine mem_pairwise_key_inj (fun x => x.id) db.blog_posts q p hq hp hpp ?_
      exact Option.some.inj (hcq.symm.trans hcp)

/-- Counterexample to claim C2 as stated: a state reached from a fresh
store by Register, Register, Create, AddComment, Delete (the admin deleting
the commented post) holds a persisted comment that references *no* existing
BlogPost — its parent foreign key was nullified and no posts remain. -/
theorem C2_counterexample :
    db5.comments = [⟨1, "hi", some 2, none⟩] ∧ db5.blog_posts = [] := by decide

/-- Claim C2 amended: in every well-formed store, each persisted comment
references exactly one existing User as author and *at most* one existing
BlogPost as parent (the parent reference is nullified when the parent post
is deleted, leaving orphaned comments); Register, Create, Edit, Delete and
AddComment all preserve this invariant. -/
theorem C2_comment_referential_integrity (db : DB) (cu : Option User)
    (e pw nm t s b i txt : String) (today : Date) (pid : Nat)
    (hInv : StoreInv db) (hcu : CUOK db cu) :
    (StoreInv (register db e pw nm).db ∧ RefsExactlyOne (register db e pw nm).db) ∧
    (StoreInv (add_new_post db cu t s b i today).db
      ∧ RefsExactlyOne (add_new_post db cu t s b i today).db) ∧
    (StoreInv (edit_post db cu pid t s b i).db
      ∧ RefsExactlyOne (edit_post db cu pid t s b i).db) ∧
    (StoreInv (delete_post db cu pid).db ∧ RefsExactlyOne (delete_post db cu pid).db) ∧
    (StoreInv (show_post db cu pid txt).db ∧ RefsExactlyOne (show_post db cu pid txt).db) := by
  have h1 := register_preserves_inv db e pw nm hInv
  have h2 := add_post_preserves_inv db cu t s b i today hInv
  have h3 := edit_preserves_inv db cu pid t s b i hInv
  have h4 := delete_preserves_inv db cu pid hInv
  have h5 := comment_preserves_inv db cu pid txt hInv hcu
  exact ⟨⟨h1, storeInv_refs_exactly_one _ h1⟩, ⟨h2, storeInv_refs_exactly_one _ h2⟩,
    ⟨h3, storeInv_refs_exactly_one _ h3⟩, ⟨h4, storeInv_refs_exactly_one _ h4⟩,
    ⟨h5, storeInv_refs_exactly_one _ h5⟩⟩

/-- Witness for C2: the invariant holds of the concrete store `db4` and is
preserved (with the exactly-one reading) across the admin's delete of the
commented post. -/
theorem C2_witness :
    StoreInv db4 ∧ CUOK db4 (some adminU) ∧
    (StoreInv (delete_post db4 (some adminU) 1).db
      ∧ RefsExactlyOne (delete_post db4 (some adminU) 1).db) :=
  ⟨by unfold StoreInv UsersWF PostsWF RefsOK; decide,
   by unfold CUOK; decide,
   (C2_comment_referential_integrity db4 (some adminU) "x@x" "p" "N" "t2" "s2" "b2" "i2" "tx"
      ⟨2025, 7, 1⟩ 1 (by unfold StoreInv UsersWF PostsWF RefsOK; decide)
      (by unfold CUOK; decide)).2.2.2.1⟩
